import Mathlib

/-!
Shallow embedding of `src/DrawioEditorProviderBinary.ts` (vscode-drawio).

The file under verification is a document-lifecycle adapter with two classes:
`DrawioBinaryDocument` (dirty flag, cached XML, backup-aware initial load,
save / saveAs / backup operations) and `DrawioEditorProviderBinary`
(forwards the host's save / saveAs / revert / backup lifecycle calls to the
document).

Modelling choices:
* External collaborators (the VS Code file system `workspace.fs`, and the
  drawio webview instance operations `loadXmlLike`, `loadPngWithEmbeddedXml`,
  `export`, `getXml`) are supplied as an environment `Env` of fallible
  functions (`Except String`), since all of them are asynchronous and may
  reject.
* Every operation of the document is a function from the environment and the
  current document state to a triple: the operation's result (`Except` models
  a resolved / rejected promise), the document state afterwards, and the list
  of calls made to the external world (`Effect`), in order.  A thrown
  JavaScript error and a rejected promise are both modelled as `.error`.
* Byte buffers (`Uint8Array` / `Buffer`) are lists of byte values (`List Nat`).
* JavaScript truthiness of the optional strings `this.currentXml` and
  `this.backupId` is modelled by `jsTruthy`: `undefined` and the empty string
  are falsy, every other string is truthy.
* `vscode.Uri` is external and is modelled as its string form; `fsPath`,
  `path` and `toStr` (the source's `toString()`) all project that string, and
  `Uri.parse` wraps a string.
-/

/-- Model of `vscode.Uri`, an external host type: it is carried around as its
string form. -/
structure Uri where
  raw : String
  deriving DecidableEq

/-- Model of `uri.fsPath` (used by `loadFromDisk` for the extension check). -/
def Uri.fsPath (u : Uri) : String := u.raw

/-- Model of `uri.path` (used by `saveAs` through Node's `extname`). -/
def Uri.path (u : Uri) : String := u.raw

/-- Model of `uri.toString()` (used by `backup` for the record's `id`). -/
def Uri.toStr (u : Uri) : String := u.raw

/-- Model of `vscode.Uri.parse` (used on the backup identifier string). -/
def Uri.parse (s : String) : Uri := { raw := s }

/-- UTF-8 encoding of a string to bytes, modelling `Buffer.from(xml, "utf-8")`. -/
def utf8Encode (s : String) : List Nat :=
  s.toUTF8.toList.map (fun b => b.toNat)

/-- UTF-8 decoding of bytes to a string, modelling
`Buffer.from(content).toString("utf-8")`.  Byte sequences that are not valid
UTF-8 are modelled as decoding to the empty string (the claims only ever
concern round-trippable text). -/
def utf8Decode (bs : List Nat) : String :=
  match String.fromUTF8? (ByteArray.mk (Array.mk (bs.map (fun n => UInt8.ofNat n)))) with
  | some s => s
  | none => ""

/-- Model of JavaScript `String.prototype.endsWith`, used by `loadFromDisk`
for the `.png` check. -/
def strEndsWith (s t : String) : Bool := t.data.isSuffixOf s.data

/-- JavaScript truthiness of a `string | undefined` value: `undefined` and the
empty string are falsy, every other string is truthy.  The source tests
`this.currentXml` and `this.backupId` this way. -/
def jsTruthy : Option String → Bool
  | none => false
  | some s => !(s == "")

/-- Model of Node's `path.extname` helper: the suffix of the last path segment
starting at its last dot, where a dot that is the first character of the
segment does not count (so `extname ".png" = ""` and `extname "a.png" = ".png"`).
`lastDotSuffix` returns the segment's suffix from its last dot, if any. -/
def lastDotSuffix : List Char → Option (List Char)
  | [] => none
  | c :: rest =>
    match lastDotSuffix rest with
    | some s => some s
    | none => if c = '.' then some (c :: rest) else none

/-- Model of Node's `path.extname` applied to a path string (see
`lastDotSuffix`).  The basename is the longest suffix without a slash. -/
def extname (p : String) : String :=
  let base := (p.data.reverse.takeWhile (fun c => c ≠ '/')).reverse
  match base with
  | [] => ""
  | _head :: rest =>
    match lastDotSuffix rest with
    | some s => String.mk s
    | none => ""

/-- Payload of the drawio instance's change event.  The type is declared in
`DrawioInstance.ts` (outside the sources given here); the adapter reads its
field `newXml`, and the spec describes the payload as the new XML string. -/
structure DrawioDocumentChange where
  newXml : String
  deriving DecidableEq

/-- A drawio webview instance reference (`CustomDrawioInstance`), external to
this adapter; only its identity matters here, its operations live in `Env`. -/
structure CustomDrawioInstance where
  instId : Nat
  deriving DecidableEq

/-- Environment of external behaviours: the host file system
(`workspace.fs.readFile` / `writeFile` / `delete`) and the operations of the
single attached drawio instance (`loadXmlLike`, `loadPngWithEmbeddedXml`,
`export` — called `exportFn` here because `export` is a Lean keyword — and
`getXml`).  All are asynchronous and fallible in the source, hence
`Except String`. -/
structure Env where
  readFile : Uri → Except String (List Nat)
  writeFile : Uri → List Nat → Except String Unit
  deleteFile : Uri → Except String Unit
  loadXmlLike : String → Except String Unit
  loadPngWithEmbeddedXml : List Nat → Except String Unit
  exportFn : String → Except String (List Nat)
  getXml : Except String String

/-- One call made to the external world, recorded in the order the source
makes it. -/
inductive Effect where
  | loadXmlLike (xml : String)
  | loadPngWithEmbeddedXml (bytes : List Nat)
  | exportCall (formatExt : String)
  | getXmlCall
  | fsReadFile (target : Uri)
  | fsWriteFile (target : Uri) (bytes : List Nat)
  | fsDelete (target : Uri)
  | fireChange (change : DrawioDocumentChange)
  | fireInstanceSave
  deriving DecidableEq

/-- The error raised by JavaScript when a method is invoked on the `undefined`
result of the non-null-asserting getter `drawio` (`this._drawio!`). -/
def typeErrorUndefined : String := "TypeError: drawio instance is undefined"

/-- State of a `DrawioBinaryDocument`: the constructor parameters `uri` and
`backupId`, the private fields `_drawio` (initially `undefined`), `_isDirty`
(initially `false`) and `currentXml` (initially `undefined`), and `subscribed`,
recording whether `setDrawioInstance` has registered the three event
subscriptions on the instance. -/
structure DrawioBinaryDocument where
  uri : Uri
  backupId : Option String
  _drawio : Option CustomDrawioInstance := none
  _isDirty : Bool := false
  currentXml : Option String := none
  subscribed : Bool := false
  deriving DecidableEq

/-- The public getter `isDirty`, returning the private field `_isDirty`. -/
def DrawioBinaryDocument.isDirty (doc : DrawioBinaryDocument) : Bool := doc._isDirty

/-- The constructor `new DrawioBinaryDocument(uri, backupId)`: field
initialisers give `_drawio = undefined`, `_isDirty = false`,
`currentXml = undefined`, and no subscriptions exist yet. -/
def DrawioBinaryDocument.new (uri : Uri) (backupId : Option String) : DrawioBinaryDocument :=
  { uri := uri, backupId := backupId, _drawio := none, _isDirty := false,
    currentXml := none, subscribed := false }

/-- Method `setDrawioInstance`: throws `"Instance already set!"` if `_drawio`
is already set (leaving the document untouched); otherwise stores the instance
and registers the `onInit` / `onChange` / `onSave` subscriptions (modelled by
the `subscribed` flag; the handler bodies are `onInitHandler`,
`onChangeHandler` and `onSaveHandler` below). -/
def DrawioBinaryDocument.setDrawioInstance (doc : DrawioBinaryDocument)
    (inst : CustomDrawioInstance) : Except String Unit × DrawioBinaryDocument :=
  match doc._drawio with
  | some _ => (.error "Instance already set!", doc)
  | none => (.ok (), { doc with _drawio := some inst, subscribed := true })

/-- Method `loadFromDisk`: first sets `_isDirty = false`; then, if the
document's `fsPath` ends in `.png`, reads the file and hands the bytes to the
instance's `loadPngWithEmbeddedXml` (both awaited, so their failures reject
the operation); otherwise throws `"Invalid file extension"` without touching
the file system or the instance. -/
def DrawioBinaryDocument.loadFromDisk (env : Env) (doc : DrawioBinaryDocument) :
    Except String Unit × DrawioBinaryDocument × List Effect :=
  let doc := { doc with _isDirty := false }
  if strEndsWith doc.uri.fsPath ".png" then
    match env.readFile doc.uri with
    | .error e => (.error e, doc, [.fsReadFile doc.uri])
    | .ok buffer =>
      match doc._drawio with
      | none => (.error typeErrorUndefined, doc, [.fsReadFile doc.uri])
      | some _ =>
        match env.loadPngWithEmbeddedXml buffer with
        | .error e => (.error e, doc, [.fsReadFile doc.uri, .loadPngWithEmbeddedXml buffer])
        | .ok _ => (.ok (), doc, [.fsReadFile doc.uri, .loadPngWithEmbeddedXml buffer])
  else
    (.error "Invalid file extension", doc, [])

/-- Body of the `onInit` subscription registered by `setDrawioInstance`.
Branches on JavaScript truthiness: if `currentXml` is truthy it calls
`this.drawio.loadXmlLike(this.currentXml)` without awaiting it (so the
handler itself resolves regardless of that call's outcome); else if
`backupId` is truthy it reads the backup file at `Uri.parse(backupId)`,
decodes the bytes as UTF-8, awaits `loadXmlLike` on the decoded text and then
sets `_isDirty = true`; else it calls `loadFromDisk()` without awaiting it
(its state change and effects happen, a rejection is detached from the
handler). -/
def DrawioBinaryDocument.onInitHandler (env : Env) (doc : DrawioBinaryDocument) :
    Except String Unit × DrawioBinaryDocument × List Effect :=
  if jsTruthy doc.currentXml then
    match doc._drawio with
    | none => (.error typeErrorUndefined, doc, [])
    | some _ => (.ok (), doc, [.loadXmlLike (doc.currentXml.getD "")])
  else if jsTruthy doc.backupId then
    let backupFile := Uri.parse (doc.backupId.getD "")
    match env.readFile backupFile with
    | .error e => (.error e, doc, [.fsReadFile backupFile])
    | .ok content =>
      let xml := utf8Decode content
      match doc._drawio with
      | none => (.error typeErrorUndefined, doc, [.fsReadFile backupFile])
      | some _ =>
        match env.loadXmlLike xml with
        | .error e => (.error e, doc, [.fsReadFile backupFile, .loadXmlLike xml])
        | .ok _ => (.ok (), { doc with _isDirty := true },
            [.fsReadFile backupFile, .loadXmlLike xml])
  else
    let r := DrawioBinaryDocument.loadFromDisk env doc
    (.ok (), r.2.1, r.2.2)

/-- Body of the `onChange` subscription: stores `change.newXml` in
`currentXml`, sets `_isDirty = true`, and fires the document-level change
emitter. -/
def DrawioBinaryDocument.onChangeHandler (doc : DrawioBinaryDocument)
    (change : DrawioDocumentChange) : DrawioBinaryDocument × List Effect :=
  ({ doc with currentXml := some change.newXml, _isDirty := true },
   [.fireChange change])

/-- Body of the `onSave` subscription: fires the document-level
`onInstanceSave` emitter and changes nothing else. -/
def DrawioBinaryDocument.onSaveHandler (doc : DrawioBinaryDocument) :
    DrawioBinaryDocument × List Effect :=
  (doc, [.fireInstanceSave])

/-- Method `saveAs(target)`: asks the instance to `export` in the format
`extname(target.path)` and writes the resulting buffer to `target`.  It never
touches the document's fields. -/
def DrawioBinaryDocument.saveAs (env : Env) (doc : DrawioBinaryDocument) (target : Uri) :
    Except String Unit × DrawioBinaryDocument × List Effect :=
  match doc._drawio with
  | none => (.error typeErrorUndefined, doc, [])
  | some _ =>
    match env.exportFn (extname target.path) with
    | .error e => (.error e, doc, [.exportCall (extname target.path)])
    | .ok buffer =>
      match env.writeFile target buffer with
      | .error e => (.error e, doc,
          [.exportCall (extname target.path), .fsWriteFile target buffer])
      | .ok _ => (.ok (), doc,
          [.exportCall (extname target.path), .fsWriteFile target buffer])

/-- Method `save()`: sets `_isDirty = false` (synchronously, before any I/O)
and returns `this.saveAs(this.uri)`. -/
def DrawioBinaryDocument.save (env : Env) (doc : DrawioBinaryDocument) :
    Except String Unit × DrawioBinaryDocument × List Effect :=
  let doc := { doc with _isDirty := false }
  DrawioBinaryDocument.saveAs env doc doc.uri

/-- Model of the record returned by `backup`: its `id` is
`destination.toString()`, and `deleteTarget` is the destination URI captured
by the record's `delete` closure (whose behaviour is `runDelete` below). -/
structure CustomDocumentBackup where
  id : String
  deleteTarget : Uri
  deriving DecidableEq

/-- Method `backup(destination)`: awaits the instance's `getXml`, writes the
XML UTF-8 encoded to `destination`, and returns the backup record. -/
def DrawioBinaryDocument.backup (env : Env) (doc : DrawioBinaryDocument) (destination : Uri) :
    Except String CustomDocumentBackup × DrawioBinaryDocument × List Effect :=
  match doc._drawio with
  | none => (.error typeErrorUndefined, doc, [])
  | some _ =>
    match env.getXml with
    | .error e => (.error e, doc, [.getXmlCall])
    | .ok xml =>
      match env.writeFile destination (utf8Encode xml) with
      | .error e => (.error e, doc,
          [.getXmlCall, .fsWriteFile destination (utf8Encode xml)])
      | .ok _ => (.ok { id := destination.toStr, deleteTarget := destination }, doc,
          [.getXmlCall, .fsWriteFile destination (utf8Encode xml)])

/-- Behaviour of the `delete` closure of a backup record: it tries
`workspace.fs.delete(destination)` inside a `try` whose `catch` is a no-op, so
it always resolves, whatever the file system answers. -/
def CustomDocumentBackup.runDelete (env : Env) (b : CustomDocumentBackup) :
    Except String Unit × List Effect :=
  match env.deleteFile b.deleteTarget with
  | .error _ => (.ok (), [.fsDelete b.deleteTarget])
  | .ok _ => (.ok (), [.fsDelete b.deleteTarget])

/-- Method `dispose()`: a no-op present only for the host's lifecycle
contract; modelled as returning the state unchanged. -/
def DrawioBinaryDocument.dispose (doc : DrawioBinaryDocument) : DrawioBinaryDocument := doc

/-- Every operation of the document (methods, and the bodies of the three
event subscriptions), used to state once-and-for-all invariants such as the
write-once drawio reference. -/
inductive DocOp where
  | setInstanceOp (inst : CustomDrawioInstance)
  | initEventOp
  | changeEventOp (change : DrawioDocumentChange)
  | saveEventOp
  | loadFromDiskOp
  | saveOp
  | saveAsOp (target : Uri)
  | backupOp (destination : Uri)
  | disposeOp
  deriving DecidableEq

/-- The document state after running one operation. -/
def runOpDoc (env : Env) (doc : DrawioBinaryDocument) : DocOp → DrawioBinaryDocument
  | .setInstanceOp inst => (DrawioBinaryDocument.setDrawioInstance doc inst).2
  | .initEventOp => (DrawioBinaryDocument.onInitHandler env doc).2.1
  | .changeEventOp change => (DrawioBinaryDocument.onChangeHandler doc change).1
  | .saveEventOp => (DrawioBinaryDocument.onSaveHandler doc).1
  | .loadFromDiskOp => (DrawioBinaryDocument.loadFromDisk env doc).2.1
  | .saveOp => (DrawioBinaryDocument.save env doc).2.1
  | .saveAsOp target => (DrawioBinaryDocument.saveAs env doc target).2.1
  | .backupOp destination => (DrawioBinaryDocument.backup env doc destination).2.1
  | .disposeOp => DrawioBinaryDocument.dispose doc

/-- Model of the host's cancellation token, accepted but never consulted by
the provider. -/
structure CancellationToken where
  isCancellationRequested : Bool
  deriving DecidableEq

/-- Model of `CustomDocumentBackupContext`: the provider only reads its
`destination`. -/
structure CustomDocumentBackupContext where
  destination : Uri
  deriving DecidableEq

/-- Provider method `saveCustomDocument`: `return document.save()`. -/
def DrawioEditorProviderBinary.saveCustomDocument (env : Env)
    (document : DrawioBinaryDocument) (_cancellation : CancellationToken) :
    Except String Unit × DrawioBinaryDocument × List Effect :=
  DrawioBinaryDocument.save env document

/-- Provider method `saveCustomDocumentAs`: `return document.saveAs(destination)`. -/
def DrawioEditorProviderBinary.saveCustomDocumentAs (env : Env)
    (document : DrawioBinaryDocument) (destination : Uri)
    (_cancellation : CancellationToken) :
    Except String Unit × DrawioBinaryDocument × List Effect :=
  DrawioBinaryDocument.saveAs env document destination

/-- Provider method `revertCustomDocument`: `return document.loadFromDisk()`. -/
def DrawioEditorProviderBinary.revertCustomDocument (env : Env)
    (document : DrawioBinaryDocument) (_cancellation : CancellationToken) :
    Except String Unit × DrawioBinaryDocument × List Effect :=
  DrawioBinaryDocument.loadFromDisk env document

/-- Provider method `backupCustomDocument`: `return document.backup(context.destination)`. -/
def DrawioEditorProviderBinary.backupCustomDocument (env : Env)
    (document : DrawioBinaryDocument) (context : CustomDocumentBackupContext)
    (_cancellation : CancellationToken) :
    Except String CustomDocumentBackup × DrawioBinaryDocument × List Effect :=
  DrawioBinaryDocument.backup env document context.destination

/-! Helper lemmas shared by the claim theorems: the document state produced by
each operation, independent of the environment's answers. -/

/-- loadFromDisk leaves the document equal to the input with the dirty flag
cleared, in every branch (the flag is assigned before any I/O is awaited). -/
theorem loadFromDisk_doc_eq (env : Env) (doc : DrawioBinaryDocument) :
    (DrawioBinaryDocument.loadFromDisk env doc).2.1 = { doc with _isDirty := false } := by
  unfold DrawioBinaryDocument.loadFromDisk
  dsimp only
  split
  · split
    · rfl
    · split
      · rfl
      · split <;> rfl
  · rfl

/-- saveAs never touches the document state. -/
theorem saveAs_doc_eq (env : Env) (doc : DrawioBinaryDocument) (target : Uri) :
    (DrawioBinaryDocument.saveAs env doc target).2.1 = doc := by
  unfold DrawioBinaryDocument.saveAs
  split
  · rfl
  · split
    · rfl
    · split <;> rfl

/-- save leaves the document equal to the input with the dirty flag cleared,
in every branch. -/
theorem save_doc_eq (env : Env) (doc : DrawioBinaryDocument) :
    (DrawioBinaryDocument.save env doc).2.1 = { doc with _isDirty := false } := by
  unfold DrawioBinaryDocument.save
  exact saveAs_doc_eq env { doc with _isDirty := false } doc.uri

/-- backup never touches the document state. -/
theorem backup_doc_eq (env : Env) (doc : DrawioBinaryDocument) (destination : Uri) :
    (DrawioBinaryDocument.backup env doc destination).2.1 = doc := by
  unfold DrawioBinaryDocument.backup
  split
  · rfl
  · split
    · rfl
    · split <;> rfl

/-- The init-event handler never changes the bound drawio reference. -/
theorem onInitHandler_drawio (env : Env) (doc : DrawioBinaryDocument) :
    (DrawioBinaryDocument.onInitHandler env doc).2.1._drawio = doc._drawio := by
  unfold DrawioBinaryDocument.onInitHandler
  dsimp only
  split
  · split <;> rfl
  · split
    · cases hr : env.readFile (Uri.parse (doc.backupId.getD "")) with
      | error e => rfl
      | ok content =>
        cases hd : doc._drawio with
        | none => dsimp only; exact hd
        | some i =>
          dsimp only
          cases hl : env.loadXmlLike (utf8Decode content) <;> dsimp only
          exact hd
    · rw [show (DrawioBinaryDocument.loadFromDisk env doc).2.1
          = { doc with _isDirty := false } from loadFromDisk_doc_eq env doc]

/-! Concrete fixtures used by witnesses and counterexamples. -/

/-- Environment in which every external operation succeeds; `readFile` answers
the two bytes of the ASCII text `hi`, `exportFn` answers the buffer `[1, 2]`,
`getXml` answers `xml`. -/
def envOk : Env :=
  { readFile := fun _ => .ok [104, 105], writeFile := fun _ _ => .ok (),
    deleteFile := fun _ => .ok (), loadXmlLike := fun _ => .ok (),
    loadPngWithEmbeddedXml := fun _ => .ok (), exportFn := fun _ => .ok [1, 2],
    getXml := .ok "xml" }

/-- Environment in which every external operation fails. -/
def envFail : Env :=
  { readFile := fun _ => .error "io", writeFile := fun _ _ => .error "io",
    deleteFile := fun _ => .error "io", loadXmlLike := fun _ => .error "io",
    loadPngWithEmbeddedXml := fun _ => .error "io", exportFn := fun _ => .error "io",
    getXml := .error "io" }

/-- A document on a `.png` location with a bound instance, no backup
identifier and no cached XML. -/
def docPng : DrawioBinaryDocument :=
  { uri := ⟨"d.png"⟩, backupId := none, _drawio := some ⟨0⟩, _isDirty := true,
    currentXml := none, subscribed := true }

/-- A document on a non-`.png` location with a bound instance. -/
def docTxt : DrawioBinaryDocument :=
  { uri := ⟨"d.txt"⟩, backupId := none, _drawio := some ⟨0⟩, _isDirty := true,
    currentXml := none, subscribed := true }

/-- A document opened with the backup identifier `b`, with a bound instance
and no cached XML. -/
def docBackup : DrawioBinaryDocument :=
  { uri := ⟨"d.png"⟩, backupId := some "b", _drawio := some ⟨0⟩, _isDirty := false,
    currentXml := none, subscribed := true }

/-- A document holding the nonempty cached snapshot `<x/>`. -/
def docCached : DrawioBinaryDocument :=
  { uri := ⟨"d.png"⟩, backupId := some "b", _drawio := some ⟨0⟩, _isDirty := true,
    currentXml := some "<x/>", subscribed := true }

/-- C10: a freshly constructed document has `isDirty = false`, no cached XML
snapshot and no bound instance, its `uri` and `backupId` equal the constructor
arguments, and the public `isDirty` getter always returns the internal dirty
flag. -/
theorem c10_fresh_document (uri : Uri) (backupId : Option String) :
    (DrawioBinaryDocument.new uri backupId).isDirty = false ∧
    (DrawioBinaryDocument.new uri backupId).currentXml = none ∧
    (DrawioBinaryDocument.new uri backupId)._drawio = none ∧
    (DrawioBinaryDocument.new uri backupId).uri = uri ∧
    (DrawioBinaryDocument.new uri backupId).backupId = backupId ∧
    ∀ d : DrawioBinaryDocument, d.isDirty = d._isDirty :=
  ⟨rfl, rfl, rfl, rfl, rfl, fun _ => rfl⟩

/-- C9: each provider lifecycle operation equals the corresponding document
operation, for every document, destination, context and cancellation token;
no result depends on the token. -/
theorem c9_provider_forwards (env : Env) (document : DrawioBinaryDocument)
    (destination : Uri) (context : CustomDocumentBackupContext)
    (cancellation : CancellationToken) :
    DrawioEditorProviderBinary.saveCustomDocument env document cancellation
      = DrawioBinaryDocument.save env document ∧
    DrawioEditorProviderBinary.saveCustomDocumentAs env document destination cancellation
      = DrawioBinaryDocument.saveAs env document destination ∧
    DrawioEditorProviderBinary.revertCustomDocument env document cancellation
      = DrawioBinaryDocument.loadFromDisk env document ∧
    DrawioEditorProviderBinary.backupCustomDocument env document context cancellation
      = DrawioBinaryDocument.backup env document context.destination :=
  ⟨rfl, rfl, rfl, rfl⟩

/-- C4: both `save` and `loadFromDisk` clear the dirty flag before awaiting
any I/O, so whatever the environment answers — including every failing
execution — the resulting document reports `isDirty = false`; in particular
`loadFromDisk` on a non-`.png` path throws but still leaves
`isDirty = false`. -/
theorem c4_dirty_cleared_before_io (env : Env) (doc : DrawioBinaryDocument) :
    (DrawioBinaryDocument.loadFromDisk env doc).2.1.isDirty = false ∧
    (DrawioBinaryDocument.save env doc).2.1.isDirty = false ∧
    (strEndsWith doc.uri.fsPath ".png" = false →
      (DrawioBinaryDocument.loadFromDisk env doc).1 = .error "Invalid file extension" ∧
      (DrawioBinaryDocument.loadFromDisk env doc).2.1.isDirty = false) := by
  refine ⟨?_, ?_, fun h => ⟨?_, ?_⟩⟩
  · rw [DrawioBinaryDocument.isDirty, loadFromDisk_doc_eq]
  · rw [DrawioBinaryDocument.isDirty, save_doc_eq]
  · unfold DrawioBinaryDocument.loadFromDisk
    simp [Uri.fsPath] at h ⊢
    simp [h]
  · rw [DrawioBinaryDocument.isDirty, loadFromDisk_doc_eq]

/-- Witness for C4 at a non-`.png` document under a failing environment. -/
theorem c4_witness :
    strEndsWith docTxt.uri.fsPath ".png" = false ∧
    (DrawioBinaryDocument.loadFromDisk envFail docTxt).1 = .error "Invalid file extension" ∧
    (DrawioBinaryDocument.loadFromDisk envFail docTxt).2.1.isDirty = false ∧
    (DrawioBinaryDocument.save envFail docTxt).2.1.isDirty = false := by
  have h := c4_dirty_cleared_before_io envFail docTxt
  exact ⟨by decide, (h.2.2 (by decide)).1, (h.2.2 (by decide)).2, h.2.1⟩

/-- C5: the drawio-instance reference is a write-once cell —
`setDrawioInstance` succeeds exactly when no instance is bound; called on a
document that already has one it throws `"Instance already set!"` leaving the
whole document state (bound reference and subscriptions included) untouched;
and no operation of the document ever replaces or clears a bound reference. -/
theorem c5_instance_write_once (doc : DrawioBinaryDocument)
    (inst i0 : CustomDrawioInstance) (env : Env) (op : DocOp) :
    ((DrawioBinaryDocument.setDrawioInstance doc inst).1 = .ok () ↔ doc._drawio = none) ∧
    (doc._drawio = some i0 →
      DrawioBinaryDocument.setDrawioInstance doc inst
        = (.error "Instance already set!", doc)) ∧
    (doc._drawio = some i0 → (runOpDoc env doc op)._drawio = some i0) := by
  refine ⟨?_, fun h => ?_, fun h => ?_⟩
  · unfold DrawioBinaryDocument.setDrawioInstance
    cases hd : doc._drawio <;> simp
  · unfold DrawioBinaryDocument.setDrawioInstance
    rw [h]
  · cases op with
    | setInstanceOp inst2 =>
      simp only [runOpDoc, DrawioBinaryDocument.setDrawioInstance, h]
    | initEventOp => simp only [runOpDoc, onInitHandler_drawio]; exact h
    | changeEventOp change =>
      simp only [runOpDoc, DrawioBinaryDocument.onChangeHandler]; exact h
    | saveEventOp => simp only [runOpDoc, DrawioBinaryDocument.onSaveHandler]; exact h
    | loadFromDiskOp => simp only [runOpDoc, loadFromDisk_doc_eq]; exact h
    | saveOp => simp only [runOpDoc, save_doc_eq]; exact h
    | saveAsOp target => simp only [runOpDoc, saveAs_doc_eq]; exact h
    | backupOp destination => simp only [runOpDoc, backup_doc_eq]; exact h
    | disposeOp => simp only [runOpDoc, DrawioBinaryDocument.dispose]; exact h

/-- Witness for C5 at a document with a bound instance. -/
theorem c5_witness :
    docPng._drawio = some ⟨0⟩ ∧
    DrawioBinaryDocument.setDrawioInstance docPng ⟨1⟩
      = (.error "Instance already set!", docPng) ∧
    (runOpDoc envOk docPng DocOp.saveOp)._drawio = some ⟨0⟩ :=
  ⟨rfl, (c5_instance_write_once docPng ⟨1⟩ ⟨0⟩ envOk DocOp.saveOp).2.1 rfl,
   (c5_instance_write_once docPng ⟨1⟩ ⟨0⟩ envOk DocOp.saveOp).2.2 rfl⟩

/-- C3: loadFromDisk succeeds only on a `.png` location, in which case it
reads the file's bytes and hands them to the instance's
`loadPngWithEmbeddedXml`; on any other extension it returns the
`"Invalid file extension"` error with an empty effect trace — no file read,
no instance load. -/
theorem c3_loadFromDisk_png_only (env : Env) (doc : DrawioBinaryDocument) :
    ((DrawioBinaryDocument.loadFromDisk env doc).1 = .ok () →
      strEndsWith doc.uri.fsPath ".png" = true) ∧
    (strEndsWith doc.uri.fsPath ".png" = false →
      DrawioBinaryDocument.loadFromDisk env doc
        = (.error "Invalid file extension", { doc with _isDirty := false }, [])) ∧
    (∀ content i, strEndsWith doc.uri.fsPath ".png" = true →
      env.readFile doc.uri = .ok content → doc._drawio = some i →
      env.loadPngWithEmbeddedXml content = .ok () →
      DrawioBinaryDocument.loadFromDisk env doc
        = (.ok (), { doc with _isDirty := false },
           [.fsReadFile doc.uri, .loadPngWithEmbeddedXml content])) := by
  have hfalse : strEndsWith doc.uri.fsPath ".png" = false →
      DrawioBinaryDocument.loadFromDisk env doc
        = (.error "Invalid file extension", { doc with _isDirty := false }, []) := by
    intro h
    simp [DrawioBinaryDocument.loadFromDisk, h]
  refine ⟨?_, hfalse, fun content i hpng hread hdrawio hload => ?_⟩
  · intro hok
    cases hb : strEndsWith doc.uri.fsPath ".png"
    · rw [hfalse hb] at hok
      simp at hok
    · rfl
  · simp [DrawioBinaryDocument.loadFromDisk, hpng, hread, hdrawio, hload]

/-- Witness for C3: a `.txt` document fails without any effect, a `.png`
document under a succeeding environment reads the bytes and loads them. -/
theorem c3_witness :
    strEndsWith docTxt.uri.fsPath ".png" = false ∧
    DrawioBinaryDocument.loadFromDisk envOk docTxt
      = (.error "Invalid file extension", { docTxt with _isDirty := false }, []) ∧
    strEndsWith docPng.uri.fsPath ".png" = true ∧
    DrawioBinaryDocument.loadFromDisk envOk docPng
      = (.ok (), { docPng with _isDirty := false },
         [.fsReadFile docPng.uri, .loadPngWithEmbeddedXml [104, 105]]) :=
  ⟨by decide, (c3_loadFromDisk_png_only envOk docTxt).2.1 (by decide), by decide,
   (c3_loadFromDisk_png_only envOk docPng).2.2 [104, 105] ⟨0⟩ (by decide) rfl rfl rfl⟩

/-- C8: saveAs exports in the format implied by the target path's extension
and writes the buffer to the target, and leaves every document field — dirty
flag, cached XML, instance reference, uri and backupId — unchanged (the state
after equals the state before, whatever the environment answers). -/
theorem c8_saveAs_frame (env : Env) (doc : DrawioBinaryDocument) (target : Uri) :
    (DrawioBinaryDocument.saveAs env doc target).2.1 = doc ∧
    (∀ buffer i, doc._drawio = some i →
      env.exportFn (extname target.path) = .ok buffer →
      env.writeFile target buffer = .ok () →
      DrawioBinaryDocument.saveAs env doc target
        = (.ok (), doc, [.exportCall (extname target.path), .fsWriteFile target buffer])) := by
  refine ⟨saveAs_doc_eq env doc target, fun buffer i hd he hw => ?_⟩
  simp [DrawioBinaryDocument.saveAs, hd, he, hw]

/-- Witness for C8 at a concrete target under a succeeding environment. -/
theorem c8_witness :
    (DrawioBinaryDocument.saveAs envOk docPng ⟨"t.png"⟩).2.1 = docPng ∧
    DrawioBinaryDocument.saveAs envOk docPng ⟨"t.png"⟩
      = (.ok (), docPng,
         [.exportCall (extname (Uri.path ⟨"t.png"⟩)), .fsWriteFile ⟨"t.png"⟩ [1, 2]]) :=
  ⟨(c8_saveAs_frame envOk docPng ⟨"t.png"⟩).1,
   (c8_saveAs_frame envOk docPng ⟨"t.png"⟩).2 [1, 2] ⟨0⟩ rfl rfl rfl⟩

/-- C7: save sets the dirty flag to false and then behaves exactly as saveAs
applied to the document's own location — it exports in the format given by
the extension of the document's own uri and writes the buffer there. -/
theorem c7_save_delegates (env : Env) (doc : DrawioBinaryDocument) :
    DrawioBinaryDocument.save env doc
      = DrawioBinaryDocument.saveAs env { doc with _isDirty := false } doc.uri ∧
    (DrawioBinaryDocument.save env doc).2.1.isDirty = false ∧
    (∀ buffer i, doc._drawio = some i →
      env.exportFn (extname doc.uri.path) = .ok buffer →
      env.writeFile doc.uri buffer = .ok () →
      DrawioBinaryDocument.save env doc
        = (.ok (), { doc with _isDirty := false },
           [.exportCall (extname doc.uri.path), .fsWriteFile doc.uri buffer])) := by
  refine ⟨rfl, ?_, fun buffer i hd he hw => ?_⟩
  · rw [DrawioBinaryDocument.isDirty, save_doc_eq]
  · simp [DrawioBinaryDocument.save, DrawioBinaryDocument.saveAs, hd, he, hw]

/-- Witness for C7 at a `.png` document under a succeeding environment. -/
theorem c7_witness :
    DrawioBinaryDocument.save envOk docPng
      = DrawioBinaryDocument.saveAs envOk { docPng with _isDirty := false } docPng.uri ∧
    (DrawioBinaryDocument.save envOk docPng).2.1.isDirty = false ∧
    DrawioBinaryDocument.save envOk docPng
      = (.ok (), { docPng with _isDirty := false },
         [.exportCall (extname docPng.uri.path), .fsWriteFile docPng.uri [1, 2]]) :=
  ⟨(c7_save_delegates envOk docPng).1, (c7_save_delegates envOk docPng).2.1,
   (c7_save_delegates envOk docPng).2.2 [1, 2] ⟨0⟩ rfl rfl rfl⟩

/-- C6: backup writes the instance's current XML — obtained via `getXml`, no
export call appears in the trace — UTF-8 encoded to the destination, and
returns a record whose id is the destination location and whose deletion
capability deletes that same file while swallowing every deletion failure:
under every environment (a second call, or the file already missing, however
the file system answers) the delete resolves successfully. -/
theorem c6_backup_contract (env : Env) (doc : DrawioBinaryDocument)
    (destination : Uri) (xml : String) (i : CustomDrawioInstance) :
    doc._drawio = some i → env.getXml = .ok xml →
    env.writeFile destination (utf8Encode xml) = .ok () →
    DrawioBinaryDocument.backup env doc destination
      = (.ok { id := destination.toStr, deleteTarget := destination }, doc,
         [.getXmlCall, .fsWriteFile destination (utf8Encode xml)]) ∧
    (∀ env2 : Env, CustomDocumentBackup.runDelete env2
        { id := destination.toStr, deleteTarget := destination }
      = (.ok (), [.fsDelete destination])) := by
  intro hd hx hw
  constructor
  · simp [DrawioBinaryDocument.backup, hd, hx, hw]
  · intro env2
    unfold CustomDocumentBackup.runDelete
    dsimp only
    cases h2 : env2.deleteFile destination <;> rfl

/-- Witness for C6: a concrete backup under a succeeding environment, whose
returned record's delete resolves even under a failing file system. -/
theorem c6_witness :
    DrawioBinaryDocument.backup envOk docPng ⟨"bk"⟩
      = (.ok { id := Uri.toStr ⟨"bk"⟩, deleteTarget := ⟨"bk"⟩ }, docPng,
         [.getXmlCall, .fsWriteFile ⟨"bk"⟩ (utf8Encode "xml")]) ∧
    CustomDocumentBackup.runDelete envFail { id := Uri.toStr ⟨"bk"⟩, deleteTarget := ⟨"bk"⟩ }
      = (.ok (), [.fsDelete ⟨"bk"⟩]) :=
  ⟨(c6_backup_contract envOk docPng ⟨"bk"⟩ "xml" ⟨0⟩ rfl rfl rfl).1,
   (c6_backup_contract envOk docPng ⟨"bk"⟩ "xml" ⟨0⟩ rfl rfl rfl).2 envFail⟩

/-- C2 (amended): after every instance-change event the document reports
`isDirty = true`, the cached XML equals the payload, and a document-level
change event is emitted; and for every nonempty payload a subsequent init
event pushes that cached XML into the instance, touching neither the backup
file nor the disk file.  The restriction to nonempty payloads is forced: the
code picks the init branch by JavaScript truthiness, so the empty-string
snapshot falls through to the backup / disk branches (see the
counterexample). -/
theorem c2_change_event (doc : DrawioBinaryDocument) (change : DrawioDocumentChange)
    (env : Env) (i : CustomDrawioInstance) :
    ((DrawioBinaryDocument.onChangeHandler doc change).1.isDirty = true ∧
     (DrawioBinaryDocument.onChangeHandler doc change).1.currentXml = some change.newXml ∧
     (DrawioBinaryDocument.onChangeHandler doc change).2 = [.fireChange change]) ∧
    (doc._drawio = some i → change.newXml ≠ "" →
      DrawioBinaryDocument.onInitHandler env
          (DrawioBinaryDocument.onChangeHandler doc change).1
        = (.ok (), (DrawioBinaryDocument.onChangeHandler doc change).1,
           [.loadXmlLike change.newXml])) := by
  refine ⟨⟨rfl, rfl, rfl⟩, fun hd hne => ?_⟩
  simp [DrawioBinaryDocument.onChangeHandler, DrawioBinaryDocument.onInitHandler,
    jsTruthy, hne, hd]

/-- Counterexample to C2 as stated: with the empty-string payload the change
event does store `""` and mark the document dirty, but a subsequent init
event does not push the cached XML — it reads the backup file instead —
because the empty string is falsy in JavaScript. -/
theorem c2_counterexample :
    (DrawioBinaryDocument.onChangeHandler docBackup ⟨""⟩).1.currentXml = some "" ∧
    (DrawioBinaryDocument.onChangeHandler docBackup ⟨""⟩).1.isDirty = true ∧
    (DrawioBinaryDocument.onInitHandler envFail
        (DrawioBinaryDocument.onChangeHandler docBackup ⟨""⟩).1).2.2
      = [Effect.fsReadFile (Uri.parse "b")] ∧
    ¬ (DrawioBinaryDocument.onInitHandler envFail
        (DrawioBinaryDocument.onChangeHandler docBackup ⟨""⟩).1).2.2
      = [Effect.loadXmlLike ""] :=
  ⟨rfl, rfl, rfl, by decide⟩

/-- Witness for C2 at the nonempty payload `<x/>` on a backup-carrying
document, under a failing environment (no file system access is needed). -/
theorem c2_witness :
    (DrawioBinaryDocument.onChangeHandler docBackup ⟨"<x/>"⟩).1.isDirty = true ∧
    (DrawioBinaryDocument.onChangeHandler docBackup ⟨"<x/>"⟩).1.currentXml = some "<x/>" ∧
    (DrawioBinaryDocument.onChangeHandler docBackup ⟨"<x/>"⟩).2
      = [Effect.fireChange ⟨"<x/>"⟩] ∧
    DrawioBinaryDocument.onInitHandler envFail
        (DrawioBinaryDocument.onChangeHandler docBackup ⟨"<x/>"⟩).1
      = (.ok (), (DrawioBinaryDocument.onChangeHandler docBackup ⟨"<x/>"⟩).1,
         [Effect.loadXmlLike "<x/>"]) := by
  have h := c2_change_event docBackup ⟨"<x/>"⟩ envFail ⟨0⟩
  exact ⟨h.1.1, h.1.2.1, h.1.2.2, h.2 rfl (by decide)⟩

/-- A document holding the empty-string snapshot and no backup identifier, on
a non-png location, with a bound instance. -/
def docEmptySnapshot : DrawioBinaryDocument :=
  { uri := ⟨"d.txt"⟩, backupId := none, _drawio := some ⟨0⟩, _isDirty := false,
    currentXml := some "", subscribed := true }

/-- A document opened with the empty-string backup identifier, with a bound
instance. -/
def docEmptyBackupId : DrawioBinaryDocument :=
  { uri := ⟨"d.png"⟩, backupId := some "", _drawio := some ⟨0⟩, _isDirty := false,
    currentXml := none, subscribed := true }

/-- Counterexample to C1 as stated: a cached snapshot exists (the empty
string), yet the init event pushes nothing into the instance — the trace is
empty, the handler fell through to `loadFromDisk`, which threw on the `.txt`
extension; and a backup identifier was supplied (the empty string), yet the
init event reads the disk file, not the backup file, and leaves the document
clean.  Both fields are tested by JavaScript truthiness and the empty string
is falsy. -/
theorem c1_counterexample :
    docEmptySnapshot.currentXml = some "" ∧
    (DrawioBinaryDocument.onInitHandler envFail docEmptySnapshot).2.2 = [] ∧
    docEmptyBackupId.backupId = some "" ∧
    (DrawioBinaryDocument.onInitHandler envFail docEmptyBackupId).2.2
      = [Effect.fsReadFile ⟨"d.png"⟩] ∧
    (DrawioBinaryDocument.onInitHandler envFail docEmptyBackupId).2.1.isDirty = false :=
  ⟨rfl, rfl, rfl, rfl, rfl⟩

/-- C1 (amended): on the init event the document resolves content in priority
order, where the code treats an empty-string snapshot or backup identifier as
absent (JavaScript truthiness): a nonempty cached snapshot is pushed into the
instance via loadXmlLike; otherwise a nonempty backup identifier makes the
handler read the backup file, decode its bytes as UTF-8, push the text via
loadXmlLike and set the dirty flag to true; otherwise loadFromDisk() is
called. -/
theorem c1_init_resolution (env : Env) (doc : DrawioBinaryDocument) :
    (∀ xml i, doc.currentXml = some xml → xml ≠ "" → doc._drawio = some i →
      DrawioBinaryDocument.onInitHandler env doc = (.ok (), doc, [.loadXmlLike xml])) ∧
    (∀ bid content i, jsTruthy doc.currentXml = false → doc.backupId = some bid →
      bid ≠ "" → doc._drawio = some i →
      env.readFile (Uri.parse bid) = .ok content →
      env.loadXmlLike (utf8Decode content) = .ok () →
      DrawioBinaryDocument.onInitHandler env doc
        = (.ok (), { doc with _isDirty := true },
           [.fsReadFile (Uri.parse bid), .loadXmlLike (utf8Decode content)])) ∧
    (jsTruthy doc.currentXml = false → jsTruthy doc.backupId = false →
      DrawioBinaryDocument.onInitHandler env doc
        = (.ok (), (DrawioBinaryDocument.loadFromDisk env doc).2.1,
           (DrawioBinaryDocument.loadFromDisk env doc).2.2)) := by
  refine ⟨fun xml i hx hne hd => ?_, fun bid content i hcx hb hbne hd hr hl => ?_,
    fun hcx hbx => ?_⟩
  · simp [DrawioBinaryDocument.onInitHandler, jsTruthy, hx, hne, hd]
  · have hbt : jsTruthy (some bid) = true := by simp [jsTruthy, hbne]
    simp [DrawioBinaryDocument.onInitHandler, hcx, hbt, hb, hr, hd, hl]
  · simp [DrawioBinaryDocument.onInitHandler, hcx, hbx]

/-- Witness for C1: the three branches at concrete documents — a nonempty
cached snapshot, a backup identifier `b`, and neither. -/
theorem c1_witness :
    DrawioBinaryDocument.onInitHandler envOk docCached
      = (.ok (), docCached, [Effect.loadXmlLike "<x/>"]) ∧
    DrawioBinaryDocument.onInitHandler envOk docBackup
      = (.ok (), { docBackup with _isDirty := true },
         [Effect.fsReadFile (Uri.parse "b"), Effect.loadXmlLike (utf8Decode [104, 105])]) ∧
    DrawioBinaryDocument.onInitHandler envOk docPng
      = (.ok (), (DrawioBinaryDocument.loadFromDisk envOk docPng).2.1,
         (DrawioBinaryDocument.loadFromDisk envOk docPng).2.2) :=
  ⟨(c1_init_resolution envOk docCached).1 "<x/>" ⟨0⟩ rfl (by decide) rfl,
   (c1_init_resolution envOk docBackup).2.1 "b" [104, 105] ⟨0⟩ rfl rfl (by decide) rfl rfl rfl,
   (c1_init_resolution envOk docPng).2.2 rfl rfl⟩
